import Mathlib

/-!
Verification of the gossip orchestration and per-peer streaming protocol of
`sui_core/src/authority_active/gossip/mod.rs`, via a shallow embedding.

The embedding keeps the source's structure: `process_response`,
`select_gossip_peer` and `peer_gossip_for_duration` are translated directly;
the asynchronous orchestrator loop `gossip_process` is modelled as a
deterministic step machine driven by an explicit event list (selection
outcomes and task completions), and the per-peer session loop is modelled as
an interpreter over a timed list of stream arrivals, with the session-wide
deadline compared against arrival times.
-/

namespace Gossip

/-- Opaque identifier of a network participant (`AuthorityName`). -/
abbrev AuthorityName := Nat

/-- Opaque content identifier of a transaction (`TransactionDigest`). -/
abbrev TransactionDigest := Nat

/-- Opaque certified transaction (`CertifiedTransaction`); only routed, never
inspected, by this core. -/
abbrev Certificate := Nat

/-- The `SuiError` variants relevant to the gossip core: the two constructed
by `mod.rs` itself (`ByzantineAuthoritySuspicion`, `GenericAuthorityError`)
plus variants standing for failures returned by the external collaborators
(storage, transport, synchronizer). -/
inductive SuiError where
  | ByzantineAuthoritySuspicion (authority : AuthorityName)
  | GenericAuthorityError (error : String)
  | StorageError (error : String)
  | NetworkError (error : String)
  | SyncError (error : String)
deriving DecidableEq, Repr

/-- `TransactionInfoResponse`, restricted to the single field the gossip core
reads: the optional certified transaction. -/
structure TransactionInfoResponse where
  certified_transaction : Option Certificate
deriving DecidableEq, Repr

/-- One invocation of the external cross-authority synchronizer
(`sync_authority_source_to_destination`): the certificate of the
`ConfirmationTransaction`, the source authority and the destination. -/
structure SyncCall where
  certificate : Certificate
  source : AuthorityName
  destination : AuthorityName
deriving DecidableEq, Repr

/-- `PeerGossip::process_response` (mod.rs lines 255-273): if the response
carries a certificate, forward it to the synchronizer with source
`peer_name` and destination `state_name` and return the synchronizer's
result; otherwise fail with `ByzantineAuthoritySuspicion` naming the peer.
The second component records the synchronizer invocations made. -/
def process_response (sync : SyncCall → Except SuiError Unit)
    (peer_name state_name : AuthorityName) (response : TransactionInfoResponse) :
    Except SuiError Unit × List SyncCall :=
  match response.certified_transaction with
  | some certificate =>
      let call : SyncCall :=
        { certificate := certificate, source := peer_name, destination := state_name }
      (sync call, [call])
  | none => (.error (.ByzantineAuthoritySuspicion peer_name), [])

/-- The rejection test of the peer-selection loop (mod.rs lines 150-153):
a sampled `name` is rejected when it is already an active peer, is the
caller itself, or cannot currently be contacted. -/
def rejectedSample (my_name : AuthorityName) (peer_names : List AuthorityName)
    (can_contact : AuthorityName → Bool) (name : AuthorityName) : Bool :=
  peer_names.contains name || name == my_name || !can_contact name

/-- The retry loop of `select_gossip_peer` (mod.rs lines 148-164).
`sample i` is the `i`-th draw of `committee.sample()`; `tries_remaining`
mirrors the source's counter: a draw is made first and accepted regardless
of the counter; on a rejected draw the counter is decremented and the loop
fails with `GenericAuthorityError` when it reaches zero. The
`tries_remaining = 0` rejection case is unreachable from `select_gossip_peer`
(the counter starts at the committee size, which is at least 1, and the
recursion keeps it at least 1); it is mapped to the same error. -/
def select_gossip_peer_loop (my_name : AuthorityName) (peer_names : List AuthorityName)
    (can_contact : AuthorityName → Bool) (sample : Nat → AuthorityName) :
    Nat → Nat → Except SuiError AuthorityName
  | tries_remaining, i =>
    let name := sample i
    if rejectedSample my_name peer_names can_contact name then
      match tries_remaining with
      | 0 => .error (.GenericAuthorityError "Could not connect to any peer")
      | t + 1 =>
        if t = 0 then .error (.GenericAuthorityError "Could not connect to any peer")
        else select_gossip_peer_loop my_name peer_names can_contact sample t (i + 1)
    else
      .ok name

/-- `select_gossip_peer` (mod.rs lines 137-165): run the retry loop with
`tries_remaining` initialised to the committee size. -/
def select_gossip_peer (my_name : AuthorityName) (peer_names : List AuthorityName)
    (can_contact : AuthorityName → Bool) (sample : Nat → AuthorityName)
    (committee_size : Nat) : Except SuiError AuthorityName :=
  select_gossip_peer_loop my_name peer_names can_contact sample committee_size 0

/-- Modelled from the spec: the `Committee` type lives in `sui_types` (outside
the provided sources); section 3 of the spec describes it as a mapping from
authority id to non-negative stake weight, immutable for the process
lifetime. -/
structure Committee where
  voting_rights : List (AuthorityName × Nat)
deriving DecidableEq, Repr

/-- Modelled from the spec: `weight(id)` returns the stake weight of `id` in
the committee table (0 for an unknown id). -/
def Committee.weight (c : Committee) (name : AuthorityName) : Nat :=
  (((c.voting_rights.find? (fun p => p.1 == name)).map Prod.snd).getD 0)

/-- Modelled from the spec: `total_weight()` is the sum of all stake
weights. -/
def Committee.total_votes (c : Committee) : Nat :=
  (c.voting_rights.map Prod.snd).sum

/-- Modelled from the spec: `quorum_threshold()` is the minimum total weight
representing a Byzantine-safe supermajority, strictly more than 2/3 of the
total stake. -/
def Committee.quorum_threshold (c : Committee) : Nat :=
  2 * c.total_votes / 3 + 1

/-- `committee.voting_rights.len()`: the number of committee members. -/
def Committee.size (c : Committee) : Nat :=
  c.voting_rights.length

/-- The delay constant `REFRESH_FOLLOWER_PERIOD_SECS` (mod.rs line 43). -/
def REFRESH_FOLLOWER_PERIOD_SECS : Nat := 60

/-- The batch length constant `REQUEST_FOLLOW_NUM_DIGESTS` (mod.rs line 42). -/
def REQUEST_FOLLOW_NUM_DIGESTS : Nat := 100000

/-- `target_num_tasks` (mod.rs lines 55-58): at most `degree` concurrent
gossip tasks and no more than `committee.size() - 1`. -/
def gossipTarget (c : Committee) (degree : Nat) : Nat :=
  min (c.size - 1) degree

/-- `HashSet::insert` on the `peer_names` set, modelled on a duplicate-free
list. -/
def insertName (l : List AuthorityName) (n : AuthorityName) : List AuthorityName :=
  if l.contains n then l else l ++ [n]

/-- The stake summation of mod.rs lines 109-113 (without the `self` term):
`peer_names.iter().map(|name| committee.weight(name)).sum()`. -/
def stakeOf (c : Committee) (names : List AuthorityName) : Nat :=
  (names.map c.weight).sum

/-- Control position of the orchestrator loop: inside the fill `while` loop
(mod.rs lines 73-117) or at the drain step (lines 119-133). -/
inductive Phase where
  | fill
  | drain
deriving DecidableEq, Repr

/-- State of `gossip_process`: the `peer_names` set, the names of the
running `gossip_tasks` (parallel to `peer_names`), the stagger counter `k`,
and the control position. -/
structure GossipState where
  peer_names : List AuthorityName
  tasks : List AuthorityName
  k : Nat
  phase : Phase
deriving DecidableEq, Repr

/-- The initial orchestrator state: no peers, no tasks, `k = 0`, at the top
of the fill loop. -/
def initGossipState : GossipState :=
  { peer_names := [], tasks := [], k := 0, phase := .fill }

deriving instance DecidableEq for Except

/-- An event consumed by the orchestrator: the outcome of one
`select_gossip_peer` call, or the completion of a running gossip task
(`select_next_some`) with its success flag. -/
inductive GEvent where
  | selection (r : Except SuiError AuthorityName)
  | taskDone (name : AuthorityName) (ok : Bool)
deriving DecidableEq, Repr

/-- The drain step of `gossip_process` (mod.rs lines 119-133): if no task is
running, loop back to the fill step (restarting the outer loop, `k = 0`);
otherwise consume the completion of one running task, record its outcome,
remove the peer from `peer_names`, and restart the outer loop. It never
launches a session. -/
def drainStep (st : GossipState) (ev : GEvent) :
    GossipState × List (AuthorityName × Nat) :=
  if st.tasks.isEmpty then
    ({ st with phase := .fill, k := 0 }, [])
  else
    match ev with
    | .taskDone name _ =>
        ({ peer_names := st.peer_names.filter (fun x => x ≠ name),
           tasks := st.tasks.filter (fun x => x ≠ name),
           k := 0, phase := .fill }, [])
    | .selection _ => (st, [])

/-- One step of the `gossip_process` loop (mod.rs lines 71-134), driven by
an event. In the fill phase with a free slot (`tasks.len() < target`):
a failed selection hits the `continue` of line 92, leaving the state
unchanged and still filling; a successful selection inserts the peer,
launches a session with duration `REFRESH_FOLLOWER_PERIOD_SECS + k * 15`
seconds, increments `k`, and, if the stake used by `peer_names ∪ {self}`
now reaches the quorum threshold, breaks out of the fill loop to the drain
step. With no free slot the fill `while` condition fails and the step
behaves as the drain step. The second component lists the sessions launched
by this step, as (peer, duration) pairs. -/
def gossipStep (c : Committee) (my_name : AuthorityName) (target : Nat)
    (st : GossipState) (ev : GEvent) :
    GossipState × List (AuthorityName × Nat) :=
  match st.phase with
  | .drain => drainStep st ev
  | .fill =>
    if st.tasks.length < target then
      match ev with
      | .selection (.error _) => (st, [])
      | .taskDone _ _ => (st, [])
      | .selection (.ok name) =>
          let peer_names := insertName st.peer_names name
          let tasks := st.tasks ++ [name]
          let duration := REFRESH_FOLLOWER_PERIOD_SECS + st.k * 15
          let total_stake_used := stakeOf c peer_names + c.weight my_name
          let phase : Phase :=
            if c.quorum_threshold ≤ total_stake_used then .drain else .fill
          ({ peer_names := peer_names, tasks := tasks, k := st.k + 1, phase := phase },
           [(name, duration)])
    else drainStep st ev

/-- `gossip_process` (mod.rs lines 47-135) over a finite event list: compute
`target = min(committee.size() - 1, degree)`; if it is zero, return at once
having launched nothing (lines 61-64); otherwise fold the step function over
the events, accumulating every launched session. -/
def gossipRun (c : Committee) (my_name : AuthorityName) (degree : Nat)
    (events : List GEvent) : GossipState × List (AuthorityName × Nat) :=
  let target := gossipTarget c degree
  if target = 0 then (initGossipState, [])
  else
    events.foldl
      (fun acc ev =>
        let r := gossipStep c my_name target acc.1 ev
        (r.1, acc.2 ++ r.2))
      (initGossipState, [])

/-- `BatchInfoRequest` (mod.rs lines 202-205 and 242-245): an optional
starting sequence number and a length. -/
structure BatchInfoRequest where
  start : Option Nat
  length : Nat
deriving DecidableEq, Repr

/-- One item yielded by the digest stream, as matched by the `select!` arm
of mod.rs lines 216-248: a signed-batch item, a transaction item
`(seq, digest)`, a stream error, or the stream closing (`None`). -/
inductive StreamEvent where
  | batch
  | tx (seq : Nat) (digest : TransactionDigest)
  | fail (e : SuiError)
  | close
deriving DecidableEq, Repr

/-- A stream event together with the instant (relative to session start) at
which the stream yields it, used to decide the race against the
session-wide deadline. -/
structure Arrival where
  time : Nat
  ev : StreamEvent
deriving DecidableEq, Repr

/-- The external collaborators of a peer session:
`state._database.transaction_exists`, the peer's
`handle_transaction_info_request`, the aggregator's
`sync_authority_source_to_destination`, and the peer's
`handle_batch_stream` (indexed by how many stream requests were made
before, so a re-request may behave differently from the first). An empty
arrival list stands for a stream that stays pending forever. -/
structure SessionEnv where
  transaction_exists : TransactionDigest → Except SuiError Bool
  handle_transaction_info_request :
      TransactionDigest → Except SuiError TransactionInfoResponse
  sync : SyncCall → Except SuiError Unit
  handle_batch_stream : Nat → BatchInfoRequest → Except SuiError (List Arrival)

/-- The body of the transaction-item arm (mod.rs lines 221-228), up to but
not including the cursor update: check local existence; when the digest is
unknown, download the transaction info from the peer and hand it to
`process_response`. Returns the outcome together with the transaction-info
requests issued and the synchronizer calls made. -/
def processTxItem (env : SessionEnv) (peer_name state_name : AuthorityName)
    (digest : TransactionDigest) :
    Except SuiError Unit × List TransactionDigest × List SyncCall :=
  match env.transaction_exists digest with
  | .error e => (.error e, [], [])
  | .ok true => (.ok (), [], [])
  | .ok false =>
    match env.handle_transaction_info_request digest with
    | .error e => (.error e, [digest], [])
    | .ok response =>
      let pr := process_response env.sync peer_name state_name response
      (pr.1, [digest], pr.2)

/-- Observable trace of one session: the batch-stream requests issued, the
sleeps performed (in ms), the transaction items `(seq, digest)` processed
without error, the cursor value after each of them, the transaction-info
requests issued, the synchronizer calls made, and whether the session ended
because the deadline fired. -/
structure SessionTrace where
  requests : List BatchInfoRequest
  sleeps : List Nat
  processed : List (Nat × TransactionDigest)
  cursors : List (Option Nat)
  info_requests : List TransactionDigest
  sync_calls : List SyncCall
  deadline_hit : Bool
deriving DecidableEq, Repr

/-- The empty session trace. -/
def emptyTrace : SessionTrace :=
  { requests := [], sleeps := [], processed := [], cursors := [],
    info_requests := [], sync_calls := [], deadline_hit := false }

/-- The `loop { tokio::select! { ... } }` of `peer_gossip_for_duration`
(mod.rs lines 209-251), interpreted over the current stream's arrival list.
`deadline` is the session-wide timeout instant: the timeout arm wins the
select whenever the next arrival does not come strictly before it (and
always wins against a forever-pending stream), breaking out with `Ok(())`.
A batch item is skipped; a transaction item runs `processTxItem` and, when
it succeeds, sets `max_seq` to `seq + 1`; a stream error is returned; a
closed stream causes a 10 ms sleep and a new `handle_batch_stream` request
starting from the current `max_seq` with length
`REQUEST_FOLLOW_NUM_DIGESTS`. The `fuel` argument bounds the number of loop
iterations the interpreter may take; exhausting it yields outcome `none`.
Returns (outcome, final `max_seq`, trace). -/
def sessionLoop (env : SessionEnv) (peer_name state_name : AuthorityName)
    (deadline : Nat) :
    Nat → Option Nat → Nat → List Arrival →
    Option (Except SuiError Unit) × Option Nat × SessionTrace
  | 0, max_seq, _, _ => (none, max_seq, emptyTrace)
  | fuel + 1, max_seq, req_idx, arrivals =>
    match arrivals with
    | [] => (some (.ok ()), max_seq, { emptyTrace with deadline_hit := true })
    | a :: rest =>
      if deadline ≤ a.time then
        (some (.ok ()), max_seq, { emptyTrace with deadline_hit := true })
      else
        match a.ev with
        | .batch => sessionLoop env peer_name state_name deadline fuel max_seq req_idx rest
        | .tx seq digest =>
          let pr := processTxItem env peer_name state_name digest
          match pr.1 with
          | .error e =>
            (some (.error e), max_seq,
             { emptyTrace with info_requests := pr.2.1, sync_calls := pr.2.2 })
          | .ok _ =>
            let r := sessionLoop env peer_name state_name deadline fuel
                (some (seq + 1)) req_idx rest
            (r.1, r.2.1,
             { r.2.2 with
                processed := (seq, digest) :: r.2.2.processed,
                cursors := some (seq + 1) :: r.2.2.cursors,
                info_requests := pr.2.1 ++ r.2.2.info_requests,
                sync_calls := pr.2.2 ++ r.2.2.sync_calls })
        | .fail e => (some (.error e), max_seq, emptyTrace)
        | .close =>
          let req : BatchInfoRequest :=
            { start := max_seq, length := REQUEST_FOLLOW_NUM_DIGESTS }
          match env.handle_batch_stream req_idx req with
          | .error e =>
            (some (.error e), max_seq,
             { emptyTrace with sleeps := [10], requests := [req] })
          | .ok newArrivals =>
            let r := sessionLoop env peer_name state_name deadline fuel max_seq
                (req_idx + 1) newArrivals
            (r.1, r.2.1,
             { r.2.2 with
                sleeps := 10 :: r.2.2.sleeps,
                requests := req :: r.2.2.requests })

/-- `peer_gossip_for_duration` (mod.rs lines 198-253): issue the initial
batch-stream request with `start = max_seq` (which is `None` for a fresh
`PeerGossip`, line 176) and length `REQUEST_FOLLOW_NUM_DIGESTS`, then run
the select loop against the deadline `duration`. -/
def peer_gossip_for_duration (env : SessionEnv) (peer_name state_name : AuthorityName)
    (duration : Nat) (fuel : Nat) :
    Option (Except SuiError Unit) × Option Nat × SessionTrace :=
  let req : BatchInfoRequest := { start := none, length := REQUEST_FOLLOW_NUM_DIGESTS }
  match env.handle_batch_stream 0 req with
  | .error e => (some (.error e), none, { emptyTrace with requests := [req] })
  | .ok arrivals =>
    let r := sessionLoop env peer_name state_name duration fuel none 1 arrivals
    (r.1, r.2.1, { r.2.2 with requests := req :: r.2.2.requests })

/-- The comparison relation on successive cursor values: an unset cursor
precedes everything; a set cursor never goes back to unset and never
decreases. -/
def cursorLe : Option Nat → Option Nat → Prop
  | none, _ => True
  | some _, none => False
  | some a, some b => a ≤ b

instance : DecidableRel cursorLe := fun a b =>
  match a, b with
  | none, _ => .isTrue trivial
  | some _, none => .isFalse (fun h => h)
  | some x, some y => (inferInstance : Decidable (x ≤ y))

/-- A four-member committee of equal stakes, used for concrete runs.
Total stake 4, quorum threshold `2 * 4 / 3 + 1 = 3`. -/
def committeeFour : Committee :=
  { voting_rights := [(0, 1), (1, 1), (2, 1), (3, 1)] }

/-- A four-member committee in which authority 2 holds most of the stake.
Total stake 7, quorum threshold `2 * 7 / 3 + 1 = 5`. -/
def committeeSkewed : Committee :=
  { voting_rights := [(0, 1), (1, 1), (2, 4), (3, 1)] }

/-- A one-member committee: gossip is disabled for it
(`target = min(1 - 1, degree) = 0`). -/
def committeeSolo : Committee :=
  { voting_rights := [(0, 1)] }

/-- A concrete session environment for witnesses: digest 5 already exists
locally, every other digest is unknown; transaction info always carries a
certificate; the synchronizer succeeds; every batch-stream request is
answered with two early transaction items. -/
def envA : SessionEnv :=
  { transaction_exists := fun d => .ok (d == 5),
    handle_transaction_info_request := fun d =>
      .ok { certified_transaction := some (d + 100) },
    sync := fun _ => .ok (),
    handle_batch_stream := fun _ _ => .ok [⟨0, .tx 1 5⟩, ⟨1, .tx 2 7⟩] }

/-- A concrete session environment whose local existence check always
fails, for exercising the error path of a transaction item. -/
def envErr : SessionEnv :=
  { transaction_exists := fun _ => .error (.StorageError "db closed"),
    handle_transaction_info_request := fun d =>
      .ok { certified_transaction := some (d + 100) },
    sync := fun _ => .ok (),
    handle_batch_stream := fun _ _ => .ok [] }

/-! ## Theorems -/

/-- Helper: any name returned by the selection retry loop passes the
rejection test. -/
theorem select_gossip_peer_loop_ok (my_name : AuthorityName)
    (peer_names : List AuthorityName) (can_contact : AuthorityName → Bool)
    (sample : Nat → AuthorityName) :
    ∀ t i name,
      select_gossip_peer_loop my_name peer_names can_contact sample t i = .ok name →
      rejectedSample my_name peer_names can_contact name = false := by
  intro t
  induction t with
  | zero =>
    intro i name h
    simp only [select_gossip_peer_loop] at h
    cases hr : rejectedSample my_name peer_names can_contact (sample i) with
    | true => simp [hr] at h
    | false =>
      simp [hr] at h
      rw [← h]
      exact hr
  | succ t ih =>
    intro i name h
    simp only [select_gossip_peer_loop] at h
    cases hr : rejectedSample my_name peer_names can_contact (sample i) with
    | true =>
      simp [hr] at h
      by_cases h0 : t = 0
      · simp [h0] at h
      · simp [h0] at h
        exact ih (i + 1) name h
    | false =>
      simp [hr] at h
      rw [← h]
      exact hr

/-- Helper: when every one of the first `t` draws starting at index `i` is
rejected, the selection retry loop with counter `t ≥ 1` exhausts its budget
and fails with the generic error. -/
theorem select_gossip_peer_loop_exhausted (my_name : AuthorityName)
    (peer_names : List AuthorityName) (can_contact : AuthorityName → Bool)
    (sample : Nat → AuthorityName) :
    ∀ t i, 1 ≤ t →
      (∀ j, j < t → rejectedSample my_name peer_names can_contact (sample (i + j)) = true) →
      select_gossip_peer_loop my_name peer_names can_contact sample t i =
        .error (.GenericAuthorityError "Could not connect to any peer") := by
  intro t
  induction t with
  | zero => intro i h1; omega
  | succ t ih =>
    intro i _ hall
    have h0 : rejectedSample my_name peer_names can_contact (sample i) = true := by
      have := hall 0 (by omega)
      simpa using this
    simp only [select_gossip_peer_loop, h0]
    by_cases ht : t = 0
    · simp [ht]
    · simp only [ht, if_false]
      have := ih (i + 1) (by omega) (fun j hj => by
        have := hall (j + 1) (by omega)
        simpa [Nat.add_assoc, Nat.add_comm 1 j] using this)
      simpa using this

/-- C1: `process_response` with a certificate-less response fails with
`ByzantineSuspicion` naming the peer and never invokes the synchronizer;
with a certificate it makes exactly one synchronizer call with source the
peer and destination self, and the synchronizer's result (in particular any
failure) is the result of `process_response`. -/
theorem claim1_process_response (sync : SyncCall → Except SuiError Unit)
    (peer_name state_name : AuthorityName) (response : TransactionInfoResponse) :
    (response.certified_transaction = none →
      process_response sync peer_name state_name response =
        (.error (.ByzantineAuthoritySuspicion peer_name), [])) ∧
    (∀ cert, response.certified_transaction = some cert →
      process_response sync peer_name state_name response =
        (sync { certificate := cert, source := peer_name, destination := state_name },
         [{ certificate := cert, source := peer_name, destination := state_name }])) := by
  constructor
  · intro h
    simp [process_response, h]
  · intro cert h
    simp [process_response, h]

/-- Witness for C1: a concrete certificate-less response yields the
Byzantine-suspicion error and an empty synchronizer call list. -/
theorem claim1_witness :
    process_response (fun _ => .ok ()) 3 7 { certified_transaction := none } =
      (.error (.ByzantineAuthoritySuspicion 3), []) :=
  (claim1_process_response (fun _ => .ok ()) 3 7 { certified_transaction := none }).1 rfl

/-- C4: a peer returned by `select_gossip_peer` is never the caller itself,
never an already-active peer, and was contactable when checked. -/
theorem claim4_select_gossip_peer_ok (my_name : AuthorityName)
    (peer_names : List AuthorityName) (can_contact : AuthorityName → Bool)
    (sample : Nat → AuthorityName) (committee_size : Nat) (name : AuthorityName)
    (h : select_gossip_peer my_name peer_names can_contact sample committee_size =
      .ok name) :
    ¬ name ∈ peer_names ∧ name ≠ my_name ∧ can_contact name = true := by
  have hr := select_gossip_peer_loop_ok my_name peer_names can_contact sample
    committee_size 0 name h
  simp [rejectedSample] at hr
  exact ⟨hr.1.1, hr.1.2, hr.2⟩

/-- Witness for C4: with self 0, active peer 1 and authority 2 not
contactable, sampling 0,1,2,3 in order returns peer 3, which satisfies all
three constraints. -/
theorem claim4_witness :
    ¬ (3 : AuthorityName) ∈ [(1 : AuthorityName)] ∧ (3 : AuthorityName) ≠ 0 ∧
      (fun n => !(n == 2)) (3 : AuthorityName) = true :=
  claim4_select_gossip_peer_ok 0 [1] (fun n => !(n == 2)) (fun i => i) 4 3 (by decide)

/-- C9: exhausting the `committee.size()` retry budget with only rejected
draws makes `select_gossip_peer` fail with
`GenericAuthorityError "Could not connect to any peer"` — an error
distinguishable from the Byzantine-suspicion session error — and the
orchestrator step consumes a failed selection by continuing the fill loop
unchanged (no launch, no abort). -/
theorem claim9_selection_exhausted_policy (my_name : AuthorityName)
    (peer_names : List AuthorityName) (can_contact : AuthorityName → Bool)
    (sample : Nat → AuthorityName) (committee_size : Nat) (c : Committee)
    (target : Nat) (st : GossipState) (e : SuiError)
    (hN : 1 ≤ committee_size)
    (hall : ∀ j, j < committee_size →
      rejectedSample my_name peer_names can_contact (sample j) = true)
    (hphase : st.phase = .fill) (hlen : st.tasks.length < target) :
    select_gossip_peer my_name peer_names can_contact sample committee_size =
      .error (.GenericAuthorityError "Could not connect to any peer") ∧
    (∀ a, SuiError.GenericAuthorityError "Could not connect to any peer" ≠
      SuiError.ByzantineAuthoritySuspicion a) ∧
    gossipStep c my_name target st (.selection (.error e)) = (st, []) := by
  refine ⟨?_, ?_, ?_⟩
  · have := select_gossip_peer_loop_exhausted my_name peer_names can_contact sample
      committee_size 0 hN (fun j hj => by simpa using hall j hj)
    exact this
  · intro a hcontra
    cases hcontra
  · simp [gossipStep, hphase, hlen]

/-- Witness for C9: everyone is uncontactable, so each of the 2 draws is
rejected; selection fails with the policy error and the orchestrator step
leaves a mid-fill state untouched. -/
theorem claim9_witness :
    select_gossip_peer 0 [] (fun _ => false) (fun i => i) 2 =
      .error (.GenericAuthorityError "Could not connect to any peer") ∧
    (∀ a, SuiError.GenericAuthorityError "Could not connect to any peer" ≠
      SuiError.ByzantineAuthoritySuspicion a) ∧
    gossipStep committeeFour 0 3 initGossipState
      (.selection (.error (.GenericAuthorityError "Could not connect to any peer"))) =
      (initGossipState, []) :=
  claim9_selection_exhausted_policy 0 [] (fun _ => false) (fun i => i) 2
    committeeFour 3 initGossipState
    (.GenericAuthorityError "Could not connect to any peer")
    (by decide) (fun j hj => by simp [rejectedSample]) rfl (by decide)

/-- C6: the orchestrator's target session count is
`min(committee.size() - 1, degree)`, and when that target is zero
`gossip_process` returns at once, launching no session whatever events
would have occurred. -/
theorem claim6_target_zero_disables (c : Committee) (my_name : AuthorityName)
    (degree : Nat) (events : List GEvent) :
    gossipTarget c degree = min (c.size - 1) degree ∧
    (gossipTarget c degree = 0 →
      gossipRun c my_name degree events = (initGossipState, [])) := by
  refine ⟨rfl, fun h => ?_⟩
  simp [gossipRun, h]

/-- Witness for C6: a one-member committee has target 0 and its run
launches nothing even though a selection event is available. -/
theorem claim6_witness :
    gossipRun committeeSolo 0 5 [.selection (.ok 1)] = (initGossipState, []) :=
  (claim6_target_zero_disables committeeSolo 0 5 [.selection (.ok 1)]).2 (by decide)

/-- Counterexample to C2: in a four-member committee with self 0, degree 3,
after launching a session to peer 1 and then suffering a selection failure,
the orchestrator is still inside the fill loop (`continue` of mod.rs line
92 re-enters the `while`, it does not fall through to the drain step), a
session to peer 1 is still running and unawaited, and the very next
successful selection launches a second session — contradicting the claim
that a selection failure makes the orchestrator proceed to the drain step
without launching a new session. -/
theorem claim2_counterexample :
    ((gossipRun committeeFour 0 3
        [.selection (.ok 1),
         .selection (.error (.GenericAuthorityError "Could not connect to any peer"))]).1.phase
      = Phase.fill) ∧
    ((gossipRun committeeFour 0 3
        [.selection (.ok 1),
         .selection (.error (.GenericAuthorityError "Could not connect to any peer"))]).1.tasks
      = [1]) ∧
    ((gossipStep committeeFour 0 3
        (gossipRun committeeFour 0 3
          [.selection (.ok 1),
           .selection (.error (.GenericAuthorityError "Could not connect to any peer"))]).1
        (.selection (.ok 2))).2
      = [(2, 75)]) := by
  decide

/-- C2 as amended: whenever peer selection fails during the fill loop, the
orchestrator launches no session and retries the fill loop with its state
unchanged (the failure never aborts the loop); it reaches the drain step
only once the pool is full or the quorum-stake break has fired, not because
of the failed selection. -/
theorem claim2_amended_selection_failure_continues_fill (c : Committee)
    (my_name : AuthorityName) (target : Nat) (st : GossipState) (e : SuiError)
    (h1 : st.phase = .fill) (h2 : st.tasks.length < target) :
    gossipStep c my_name target st (.selection (.error e)) = (st, []) := by
  simp [gossipStep, h1, h2]

/-- Witness for the amended C2: a failed selection in the initial fill
state of the four-member committee leaves the state unchanged and launches
nothing. -/
theorem claim2_amended_witness :
    gossipStep committeeFour 0 3 initGossipState
      (.selection (.error (.GenericAuthorityError "Could not connect to any peer"))) =
      (initGossipState, []) :=
  claim2_amended_selection_failure_continues_fill committeeFour 0 3 initGossipState
    (.GenericAuthorityError "Could not connect to any peer") rfl (by decide)

/-- Counterexample to C5: in the skewed committee (self 0 with stake 1,
peer 2 with stake 4, total 7, quorum threshold 5), after peers 1 and 2 are
launched and peer 1's session completes, the orchestrator re-enters the
fill loop in a state whose active stake together with self (5) already
meets the quorum threshold while only 1 of 3 slots is used — and the next
successful selection still launches a session, because the quorum check of
mod.rs lines 109-116 runs only after a launch. This contradicts the claim
that once the stake of the active peers together with self reaches the
quorum threshold no further session is launched in that fill pass. -/
theorem claim5_counterexample :
    (Committee.quorum_threshold committeeSkewed ≤
      stakeOf committeeSkewed
          (gossipRun committeeSkewed 0 3
            [.selection (.ok 1), .selection (.ok 2), .taskDone 1 true]).1.peer_names
        + Committee.weight committeeSkewed 0) ∧
    ((gossipRun committeeSkewed 0 3
        [.selection (.ok 1), .selection (.ok 2), .taskDone 1 true]).1.phase
      = Phase.fill) ∧
    ((gossipRun committeeSkewed 0 3
        [.selection (.ok 1), .selection (.ok 2), .taskDone 1 true]).1.tasks.length
      < gossipTarget committeeSkewed 3) ∧
    ((gossipStep committeeSkewed 0 3
        (gossipRun committeeSkewed 0 3
          [.selection (.ok 1), .selection (.ok 2), .taskDone 1 true]).1
        (.selection (.ok 3))).2
      = [(3, 60)]) := by
  decide

/-- C5 as amended: the quorum-stake check runs only after each launch, so
within a fill pass, as soon as a launch brings the stake of the active
peers together with self to the quorum threshold, the orchestrator breaks
to the drain step, and while at the drain step no session is ever launched;
a pass that already starts at or above the threshold may still launch one
session before its first check fires. -/
theorem claim5_amended_quorum_break (c : Committee) (my_name : AuthorityName)
    (target : Nat) (st : GossipState) (name : AuthorityName)
    (h1 : st.phase = .fill) (h2 : st.tasks.length < target)
    (hq : c.quorum_threshold ≤
      stakeOf c (insertName st.peer_names name) + c.weight my_name) :
    (gossipStep c my_name target st (.selection (.ok name))).1.phase = Phase.drain ∧
    (∀ st2 ev, st2.phase = Phase.drain → (gossipStep c my_name target st2 ev).2 = []) := by
  constructor
  · simp [gossipStep, h1, h2, hq]
  · intro st2 ev h
    cases ev <;> simp [gossipStep, h, drainStep] <;> split <;> simp

/-- Witness for the amended C5: launching peer 2 (stake 4) from the initial
state of the skewed committee reaches the threshold (5), so the step moves
to the drain phase, where no launches happen. -/
theorem claim5_amended_witness :
    (gossipStep committeeSkewed 0 3 initGossipState (.selection (.ok 2))).1.phase
      = Phase.drain ∧
    (∀ st2 ev, st2.phase = Phase.drain →
      (gossipStep committeeSkewed 0 3 st2 ev).2 = []) :=
  claim5_amended_quorum_break committeeSkewed 0 3 initGossipState 2
    rfl (by decide) (by decide)

/-- Helper: in every session run, the recorded cursor value after each
successfully processed transaction item `(seq, digest)` is exactly
`some (seq + 1)`. -/
theorem sessionLoop_cursors_eq_processed (env : SessionEnv)
    (peer_name state_name : AuthorityName) (deadline : Nat) :
    ∀ fuel max_seq req_idx arrivals,
      (sessionLoop env peer_name state_name deadline fuel max_seq req_idx
          arrivals).2.2.cursors =
        (sessionLoop env peer_name state_name deadline fuel max_seq req_idx
            arrivals).2.2.processed.map (fun q => some (q.1 + 1)) := by
  intro fuel
  induction fuel with
  | zero => intro ms i as; rfl
  | succ fuel ih =>
    intro ms i as
    cases as with
    | nil => rfl
    | cons a rest =>
      obtain ⟨tt, ev⟩ := a
      by_cases hd : deadline ≤ tt
      · simp [sessionLoop, hd, emptyTrace]
      · cases ev with
        | batch => simpa [sessionLoop, hd] using ih ms i rest
        | tx seq digest =>
          cases hpr : (processTxItem env peer_name state_name digest).1 with
          | error e => simp [sessionLoop, hd, hpr, emptyTrace]
          | ok u => simp [sessionLoop, hd, hpr, ih (some (seq + 1)) i rest]
        | fail e => simp [sessionLoop, hd, emptyTrace]
        | close =>
          cases hbs : env.handle_batch_stream i
              { start := ms, length := REQUEST_FOLLOW_NUM_DIGESTS } with
          | error e => simp [sessionLoop, hd, hbs, emptyTrace]
          | ok newArrivals => simp [sessionLoop, hd, hbs, ih ms (i + 1) newArrivals]

/-- Helper: a session whose trace records that the deadline fired has
outcome `Ok(())`. -/
theorem sessionLoop_deadline_hit_ok (env : SessionEnv)
    (peer_name state_name : AuthorityName) (deadline : Nat) :
    ∀ fuel max_seq req_idx arrivals,
      (sessionLoop env peer_name state_name deadline fuel max_seq req_idx
          arrivals).2.2.deadline_hit = true →
      (sessionLoop env peer_name state_name deadline fuel max_seq req_idx
          arrivals).1 = some (.ok ()) := by
  intro fuel
  induction fuel with
  | zero => intro ms i as h; simp [sessionLoop, emptyTrace] at h
  | succ fuel ih =>
    intro ms i as h
    cases as with
    | nil => rfl
    | cons a rest =>
      obtain ⟨tt, ev⟩ := a
      by_cases hd : deadline ≤ tt
      · simp [sessionLoop, hd]
      · cases ev with
        | batch =>
          simp only [sessionLoop, if_neg hd] at h ⊢
          exact ih ms i rest h
        | tx seq digest =>
          cases hpr : (processTxItem env peer_name state_name digest).1 with
          | error e => simp [sessionLoop, hd, hpr, emptyTrace] at h
          | ok u =>
            simp only [sessionLoop, if_neg hd, hpr] at h ⊢
            exact ih (some (seq + 1)) i rest h
        | fail e => simp [sessionLoop, hd, emptyTrace] at h
        | close =>
          cases hbs : env.handle_batch_stream i
              { start := ms, length := REQUEST_FOLLOW_NUM_DIGESTS } with
          | error e => simp [sessionLoop, hd, hbs, emptyTrace] at h
          | ok newArrivals =>
            simp only [sessionLoop, if_neg hd, hbs] at h ⊢
            exact ih ms (i + 1) newArrivals h

/-- C3: after every transaction item processed without error the cursor
equals `seq + 1` (the trace invariant `cursors = processed.map (some (· + 1))`);
consequently, when the peer streams its items in non-decreasing sequence
order — the ordering the digest-stream interface guarantees — the cursor is
non-decreasing across the items of one session; and an item whose digest
already exists locally is still processed successfully (so its cursor
update still happens) without any transaction-info request or synchronizer
call. -/
theorem claim3_cursor_advances (env : SessionEnv)
    (peer_name state_name : AuthorityName) (deadline fuel : Nat)
    (max_seq : Option Nat) (req_idx : Nat) (arrivals : List Arrival) :
    ((sessionLoop env peer_name state_name deadline fuel max_seq req_idx
        arrivals).2.2.cursors =
      (sessionLoop env peer_name state_name deadline fuel max_seq req_idx
          arrivals).2.2.processed.map (fun q => some (q.1 + 1))) ∧
    (List.Chain' (· ≤ ·)
        ((sessionLoop env peer_name state_name deadline fuel max_seq req_idx
            arrivals).2.2.processed.map Prod.fst) →
      List.Chain' cursorLe
        (sessionLoop env peer_name state_name deadline fuel max_seq req_idx
            arrivals).2.2.cursors) ∧
    (∀ d, env.transaction_exists d = .ok true →
      processTxItem env peer_name state_name d = (.ok (), [], [])) := by
  refine ⟨sessionLoop_cursors_eq_processed env peer_name state_name deadline
    fuel max_seq req_idx arrivals, ?_, ?_⟩
  · intro hmono
    rw [sessionLoop_cursors_eq_processed env peer_name state_name deadline
      fuel max_seq req_idx arrivals]
    rw [List.chain'_map] at hmono ⊢
    exact hmono.imp (fun a b hab => Nat.succ_le_succ hab)
  · intro d hd
    simp [processTxItem, hd]

/-- Witness for C3: in `envA` the session processes `(1, 5)` (digest 5
already exists locally) and `(2, 7)`, leaving cursors `[some 2, some 3]`,
which are non-decreasing; and digest 5 is processed without any
transaction-info request. -/
theorem claim3_witness :
    (sessionLoop envA 1 2 10 5 none 0 [⟨0, .tx 1 5⟩, ⟨1, .tx 2 7⟩]).2.2.cursors =
      [some 2, some 3] ∧
    List.Chain' cursorLe
      (sessionLoop envA 1 2 10 5 none 0 [⟨0, .tx 1 5⟩, ⟨1, .tx 2 7⟩]).2.2.cursors ∧
    processTxItem envA 1 2 5 = (.ok (), [], []) := by
  refine ⟨by decide, ?_, ?_⟩
  · exact (claim3_cursor_advances envA 1 2 10 5 none 0
      [⟨0, .tx 1 5⟩, ⟨1, .tx 2 7⟩]).2.1
      (by show List.Chain' (· ≤ ·) [1, 2]; simp)
  · exact (claim3_cursor_advances envA 1 2 10 5 none 0
      [⟨0, .tx 1 5⟩, ⟨1, .tx 2 7⟩]).2.2 5 (by decide)

/-- C7: when the deadline does not strictly precede the next pending stream
arrival (in particular when the stream is pending forever), the session
terminates at once with `Ok(())` without consuming that arrival — the
deadline preempts the in-progress stream wait regardless of stream state;
and any session whose trace shows the deadline fired has outcome `Ok(())`,
never an error. -/
theorem claim7_deadline_is_clean (env : SessionEnv)
    (peer_name state_name : AuthorityName) (deadline : Nat) :
    (∀ fuel max_seq req_idx arrivals,
      (∀ a, arrivals.head? = some a → deadline ≤ a.time) →
      sessionLoop env peer_name state_name deadline (fuel + 1) max_seq req_idx
          arrivals =
        (some (.ok ()), max_seq, { emptyTrace with deadline_hit := true })) ∧
    (∀ fuel max_seq req_idx arrivals,
      (sessionLoop env peer_name state_name deadline fuel max_seq req_idx
          arrivals).2.2.deadline_hit = true →
      (sessionLoop env peer_name state_name deadline fuel max_seq req_idx
          arrivals).1 = some (.ok ())) := by
  constructor
  · intro fuel ms i as h
    cases as with
    | nil => rfl
    | cons a rest =>
      have ha : deadline ≤ a.time := h a rfl
      simp [sessionLoop, ha]
  · exact sessionLoop_deadline_hit_ok env peer_name state_name deadline

/-- Witness for C7: a stream whose only pending arrival comes at time 7 is
preempted by the deadline 5; the session ends `Ok(())`. -/
theorem claim7_witness :
    sessionLoop envA 1 2 5 3 none 0 [⟨7, .batch⟩] =
      (some (.ok ()), none, { emptyTrace with deadline_hit := true }) :=
  (claim7_deadline_is_clean envA 1 2 5).1 2 none 0 [⟨7, .batch⟩] (by decide)

/-- C8: when the stream closes before the deadline, the session does not
terminate: it sleeps the fixed 10 ms, re-issues the batch-stream request
with `start` equal to the current cursor and the same fixed length
`REQUEST_FOLLOW_NUM_DIGESTS`, and continues the same loop — same deadline,
same cursor — on the arrivals of the new stream. -/
theorem claim8_close_resubscribes (env : SessionEnv)
    (peer_name state_name : AuthorityName) (deadline fuel : Nat)
    (max_seq : Option Nat) (req_idx t : Nat) (rest newArrivals : List Arrival)
    (ht : t < deadline)
    (hs : env.handle_batch_stream req_idx
        { start := max_seq, length := REQUEST_FOLLOW_NUM_DIGESTS } = .ok newArrivals) :
    sessionLoop env peer_name state_name deadline (fuel + 1) max_seq req_idx
        (⟨t, .close⟩ :: rest) =
      ((sessionLoop env peer_name state_name deadline fuel max_seq (req_idx + 1)
          newArrivals).1,
       (sessionLoop env peer_name state_name deadline fuel max_seq (req_idx + 1)
          newArrivals).2.1,
       { (sessionLoop env peer_name state_name deadline fuel max_seq (req_idx + 1)
            newArrivals).2.2 with
          sleeps := 10 ::
            (sessionLoop env peer_name state_name deadline fuel max_seq (req_idx + 1)
                newArrivals).2.2.sleeps,
          requests := { start := max_seq, length := REQUEST_FOLLOW_NUM_DIGESTS } ::
            (sessionLoop env peer_name state_name deadline fuel max_seq (req_idx + 1)
                newArrivals).2.2.requests }) := by
  simp only [sessionLoop]
  simp [show ¬ deadline ≤ t from by omega, hs]

/-- Witness for C8: in `envA`, a stream closing at time 0 under deadline 10
with cursor `some 9` re-requests `{start := some 9, length := 100000}`
after a 10 ms sleep and goes on to process the new stream's two items. -/
theorem claim8_witness :
    sessionLoop envA 1 2 10 4 (some 9) 0 [⟨0, .close⟩] =
      (some (.ok ()), some 3,
       { requests := [{ start := some 9, length := REQUEST_FOLLOW_NUM_DIGESTS }],
         sleeps := [10],
         processed := [(1, 5), (2, 7)],
         cursors := [some 2, some 3],
         info_requests := [7],
         sync_calls := [{ certificate := 107, source := 1, destination := 2 }],
         deadline_hit := true }) :=
  (claim8_close_resubscribes envA 1 2 10 3 (some 9) 0 0 []
      [⟨0, .tx 1 5⟩, ⟨1, .tx 2 7⟩] (by decide) (by decide)).trans (by decide)

/-- C10: a transaction item whose local existence check, transaction-info
request or `process_response` fails terminates the session with exactly
that error, the cursor stays at its pre-item value (so a later session may
re-request the item), and the item is not recorded as processed. -/
theorem claim10_failed_item_stops_session (env : SessionEnv)
    (peer_name state_name : AuthorityName) (deadline fuel : Nat)
    (max_seq : Option Nat) (req_idx t seq : Nat) (digest : TransactionDigest)
    (rest : List Arrival) (e : SuiError)
    (ht : t < deadline)
    (he : (processTxItem env peer_name state_name digest).1 = .error e) :
    sessionLoop env peer_name state_name deadline (fuel + 1) max_seq req_idx
        (⟨t, .tx seq digest⟩ :: rest) =
      (some (.error e), max_seq,
       { emptyTrace with
          info_requests := (processTxItem env peer_name state_name digest).2.1,
          sync_calls := (processTxItem env peer_name state_name digest).2.2 }) := by
  simp only [sessionLoop]
  simp [show ¬ deadline ≤ t from by omega, he]

/-- Witness for C10: with a failing existence check (`envErr`), the session
at cursor `some 9` terminates with the storage error, the cursor is still
`some 9`, and nothing is recorded as processed. -/
theorem claim10_witness :
    sessionLoop envErr 1 2 10 4 (some 9) 0 [⟨0, .tx 3 8⟩] =
      (some (.error (.StorageError "db closed")), some 9, emptyTrace) :=
  (claim10_failed_item_stops_session envErr 1 2 10 3 (some 9) 0 0 3 8 []
      (.StorageError "db closed") (by decide) (by decide)).trans (by decide)

end Gossip
